import Mathlib

/-!
Verification of the scene-graph core of the babai repository.

The central artifact is the class GameEntity in src/src/core/GameEntity_OLD_2.js
(first class in the file, "optimized parent-child transforms"), together with
the validating render-sync variant of the class in src/unnamed/part_001 and the
driver in src/src/scene.ts.

Embedding conventions:
* JavaScript numbers are embedded as rationals (ℚ): every concrete numeric
  literal appearing in the source is a dyadic rational, and the matrix and
  tolerance arithmetic of the hierarchy code is ring arithmetic, so ℚ is an
  exact carrier (we idealize away floating-point rounding).  The numeric
  routines that genuinely need transcendental functions (acos, sqrt, sin in
  the rotation-steering and matrix-decomposition code) are embedded over ℝ.
* The JavaScript heap of entities is a function from addresses (Nat) to
  entity records; an in-place field assignment becomes a functional update.
* A JavaScript value that can be null, an entity reference, or an identifier
  string (the parent / children / neighbors slots before and after
  deserialization) is embedded as the inductive type JsRef.
* Babylon.js math helpers used by the code (Vector3, Quaternion, Matrix
  operations) are embedded from their library definitions: matrices are
  16-entry row-major records, ComposeToRef / multiplyToRef / decompose /
  Slerp use Babylon's formulas, equalsWithEpsilon is componentwise
  |a - b| ≤ ε.
-/

/-- Three-component vector (Babylon.js Vector3) over scalars α. -/
structure Vec3 (α : Type) where
  x : α
  y : α
  z : α
deriving DecidableEq

/-- Four-component quaternion (Babylon.js Quaternion) over scalars α. -/
structure Quat4 (α : Type) where
  x : α
  y : α
  z : α
  w : α
deriving DecidableEq

/-- Row-major 4×4 matrix, entries m0..m15 as stored by Babylon.js Matrix
(translation in m12,m13,m14). -/
structure Mat4 (α : Type) where
  m0 : α
  m1 : α
  m2 : α
  m3 : α
  m4 : α
  m5 : α
  m6 : α
  m7 : α
  m8 : α
  m9 : α
  m10 : α
  m11 : α
  m12 : α
  m13 : α
  m14 : α
  m15 : α
deriving DecidableEq

/-- Babylon.js Vector3.Zero(). -/
def vzero {α : Type} [Zero α] : Vec3 α := ⟨0, 0, 0⟩

/-- Babylon.js Quaternion.Identity(): (0,0,0,1). -/
def qid {α : Type} [Zero α] [One α] : Quat4 α := ⟨0, 0, 0, 1⟩

/-- Babylon.js new Matrix(): a fresh Float32Array(16), i.e. the zero matrix. -/
def mzero {α : Type} [Zero α] : Mat4 α :=
  ⟨0, 0, 0, 0, 0, 0, 0, 0, 0, 0, 0, 0, 0, 0, 0, 0⟩

/-- Babylon.js Matrix.ComposeToRef(scale, rotation, translation, result):
build the local affine matrix from scale, quaternion rotation and
translation. -/
def matCompose {α : Type} [CommRing α] (scale : Vec3 α) (rotation : Quat4 α)
    (translation : Vec3 α) : Mat4 α :=
  let x := rotation.x
  let y := rotation.y
  let z := rotation.z
  let w := rotation.w
  let x2 := x + x
  let y2 := y + y
  let z2 := z + z
  let xx := x * x2
  let xy := x * y2
  let xz := x * z2
  let yy := y * y2
  let yz := y * z2
  let zz := z * z2
  let wx := w * x2
  let wy := w * y2
  let wz := w * z2
  { m0 := (1 - (yy + zz)) * scale.x
    m1 := (xy + wz) * scale.x
    m2 := (xz - wy) * scale.x
    m3 := 0
    m4 := (xy - wz) * scale.y
    m5 := (1 - (xx + zz)) * scale.y
    m6 := (yz + wx) * scale.y
    m7 := 0
    m8 := (xz + wy) * scale.z
    m9 := (yz - wx) * scale.z
    m10 := (1 - (xx + yy)) * scale.z
    m11 := 0
    m12 := translation.x
    m13 := translation.y
    m14 := translation.z
    m15 := 1 }

/-- Babylon.js a.multiplyToRef(b, result): row-major product a·b
(result[4i+j] = Σ_k a[4i+k]·b[4k+j]); with Babylon's row-vector convention
this applies a first, then b. -/
def matMul {α : Type} [CommRing α] (a b : Mat4 α) : Mat4 α :=
  { m0 := a.m0 * b.m0 + a.m1 * b.m4 + a.m2 * b.m8 + a.m3 * b.m12
    m1 := a.m0 * b.m1 + a.m1 * b.m5 + a.m2 * b.m9 + a.m3 * b.m13
    m2 := a.m0 * b.m2 + a.m1 * b.m6 + a.m2 * b.m10 + a.m3 * b.m14
    m3 := a.m0 * b.m3 + a.m1 * b.m7 + a.m2 * b.m11 + a.m3 * b.m15
    m4 := a.m4 * b.m0 + a.m5 * b.m4 + a.m6 * b.m8 + a.m7 * b.m12
    m5 := a.m4 * b.m1 + a.m5 * b.m5 + a.m6 * b.m9 + a.m7 * b.m13
    m6 := a.m4 * b.m2 + a.m5 * b.m6 + a.m6 * b.m10 + a.m7 * b.m14
    m7 := a.m4 * b.m3 + a.m5 * b.m7 + a.m6 * b.m11 + a.m7 * b.m15
    m8 := a.m8 * b.m0 + a.m9 * b.m4 + a.m10 * b.m8 + a.m11 * b.m12
    m9 := a.m8 * b.m1 + a.m9 * b.m5 + a.m10 * b.m9 + a.m11 * b.m13
    m10 := a.m8 * b.m2 + a.m9 * b.m6 + a.m10 * b.m10 + a.m11 * b.m14
    m11 := a.m8 * b.m3 + a.m9 * b.m7 + a.m10 * b.m11 + a.m11 * b.m15
    m12 := a.m12 * b.m0 + a.m13 * b.m4 + a.m14 * b.m8 + a.m15 * b.m12
    m13 := a.m12 * b.m1 + a.m13 * b.m5 + a.m14 * b.m9 + a.m15 * b.m13
    m14 := a.m12 * b.m2 + a.m13 * b.m6 + a.m14 * b.m10 + a.m15 * b.m14
    m15 := a.m12 * b.m3 + a.m13 * b.m7 + a.m14 * b.m11 + a.m15 * b.m15 }

/-- Babylon.js Matrix.getTranslationToRef: (m12, m13, m14). -/
def matTranslation {α : Type} (m : Mat4 α) : Vec3 α := ⟨m.m12, m.m13, m.m14⟩

/-- Babylon.js Scalar.WithinEpsilon(a, b, ε): |a - b| ≤ ε. -/
def withinEpsilon (a b eps : ℚ) : Bool := |a - b| ≤ eps

/-- Babylon.js Vector3.equalsWithEpsilon: componentwise WithinEpsilon. -/
def vec3EqualsWithEpsilon (a b : Vec3 ℚ) (eps : ℚ) : Bool :=
  withinEpsilon a.x b.x eps && withinEpsilon a.y b.y eps &&
    withinEpsilon a.z b.z eps

/-- Babylon.js Quaternion.equalsWithEpsilon: componentwise WithinEpsilon. -/
def quatEqualsWithEpsilon (a b : Quat4 ℚ) (eps : ℚ) : Bool :=
  withinEpsilon a.x b.x eps && withinEpsilon a.y b.y eps &&
    withinEpsilon a.z b.z eps && withinEpsilon a.w b.w eps

/-- The IEEE-754 double value of the JavaScript constant Math.PI
(884279719003555 · 2⁻⁴⁸), the default maxTurnRate. -/
def mathPI : ℚ := 884279719003555 / 281474976710656

/-- The tolerance literal 0.0001 passed to equalsWithEpsilon by the three
transform setters. -/
def epsilonTol : ℚ := 1 / 10000

/-- A JavaScript value held in a parent / children / neighbors slot: null, a
live entity reference (a heap address), an identifier string (the placeholder
state between fromJSON and resolveReferences), or undefined (what Map.get
yields for an unknown key). -/
inductive JsRef where
  | null : JsRef
  | entity : Nat → JsRef
  | str : String → JsRef
  | jsUndefined : JsRef
deriving DecidableEq

/-- The state of one GameEntity (first class of
src/src/core/GameEntity_OLD_2.js), field for field from its constructor.
Fields whose values are external objects (manager, render component,
render callback) are embedded as optional opaque tokens. -/
structure GameEntity where
  name : String
  active : Bool
  children : List JsRef
  parent : JsRef
  neighbors : List JsRef
  neighborhoodRadius : ℚ
  updateNeighborhood : Bool
  _position : Vec3 ℚ
  _rotation : Quat4 ℚ
  _scale : Vec3 ℚ
  _worldPosition : Vec3 ℚ
  _worldRotation : Quat4 ℚ
  _worldScale : Vec3 ℚ
  forward : Vec3 ℚ
  up : Vec3 ℚ
  boundingRadius : ℚ
  maxTurnRate : ℚ
  canActivateTrigger : Bool
  manager : Option Nat
  _localMatrix : Mat4 ℚ
  _worldMatrix : Mat4 ℚ
  _worldMatrixDirty : Bool
  _localMatrixDirty : Bool
  _transformDirty : Bool
  _renderComponent : Option Nat
  _renderComponentCallback : Option Nat
  _started : Bool
  _uuid : Option String
deriving DecidableEq

/-- The constructor new GameEntity(): all defaults from lines 10-124 of the
source (fresh Babylon matrices are zero-filled Float32Arrays). -/
def GameEntity.init : GameEntity :=
  { name := ""
    active := true
    children := []
    parent := .null
    neighbors := []
    neighborhoodRadius := 1
    updateNeighborhood := false
    _position := vzero
    _rotation := qid
    _scale := ⟨1, 1, 1⟩
    _worldPosition := vzero
    _worldRotation := qid
    _worldScale := ⟨1, 1, 1⟩
    forward := ⟨0, 0, 1⟩
    up := ⟨0, 1, 0⟩
    boundingRadius := 0
    maxTurnRate := mathPI
    canActivateTrigger := true
    manager := none
    _localMatrix := mzero
    _worldMatrix := mzero
    _worldMatrixDirty := true
    _localMatrixDirty := true
    _transformDirty := true
    _renderComponent := none
    _renderComponentCallback := none
    _started := false
    _uuid := none }

/-- The heap of entities: every address holds an entity record. -/
def World : Type := Nat → GameEntity

/-- Overwrite the record at one address (the effect of mutating that
JavaScript object in place). -/
def setEnt (w : World) (a : Nat) (e : GameEntity) : World :=
  fun b => if b = a then e else w b

/-- Body of the loop "for (const child of this.children) child._worldMatrixDirty
= true;" (used by _markDirty and by _updateWorldMatrix).  A non-entity entry
(an unresolved identifier string) cannot occur in a live graph — property
assignment on a string primitive would throw in strict mode — so only entity
references are marked. -/
def markChildrenDirty (w : World) (l : List JsRef) : World :=
  l.foldl
    (fun acc r =>
      match r with
      | .entity c => setEnt acc c { acc c with _worldMatrixDirty := true }
      | _ => acc)
    w

/-- GameEntity._markDirty (source lines 497-505): set this entity's
_localMatrixDirty and _worldMatrixDirty, then set _worldMatrixDirty on each
direct child. -/
def markDirty (w : World) (a : Nat) : World :=
  let w1 := setEnt w a
    { w a with _localMatrixDirty := true, _worldMatrixDirty := true }
  markChildrenDirty w1 (w1 a).children

/-- The position setter (source lines 131-136): if the new value differs from
_position beyond epsilon 0.0001 per component, copy it in and _markDirty;
otherwise do nothing. -/
def setPosition (w : World) (a : Nat) (v : Vec3 ℚ) : World :=
  if vec3EqualsWithEpsilon (w a)._position v epsilonTol then w
  else markDirty (setEnt w a { w a with _position := v }) a

/-- The rotation setter (source lines 143-148), same tolerance scheme with
four components. -/
def setRotation (w : World) (a : Nat) (v : Quat4 ℚ) : World :=
  if quatEqualsWithEpsilon (w a)._rotation v epsilonTol then w
  else markDirty (setEnt w a { w a with _rotation := v }) a

/-- The scale setter (source lines 155-160). -/
def setScale (w : World) (a : Nat) (v : Vec3 ℚ) : World :=
  if vec3EqualsWithEpsilon (w a)._scale v epsilonTol then w
  else markDirty (setEnt w a { w a with _scale := v }) a

/-- Mutating the vector returned by the position getter in place, e.g.
entity.position.set(1, 0, 3) as done in src/src/scene.ts: the getter (source
lines 127-129) returns the internal _position object itself, so Vector3.set
overwrites the stored components and runs none of the setter's logic. -/
def positionSetInPlace (w : World) (a : Nat) (v : Vec3 ℚ) : World :=
  setEnt w a { w a with _position := v }

/-- Mutating the quaternion returned by the rotation getter in place: the
getter (source lines 139-141) returns the internal _rotation object itself,
so a Quaternion.set / copyFrom style write overwrites the stored components
and runs none of the setter's logic. -/
def rotationSetInPlace (w : World) (a : Nat) (q : Quat4 ℚ) : World :=
  setEnt w a { w a with _rotation := q }

/-- Mutating the vector returned by the scale getter in place (compare
entity1.scaling.y = 3 in src/src/scene.ts): the getter (source lines 151-153)
returns the internal _scale object itself. -/
def scaleSetInPlace (w : World) (a : Nat) (sc : Vec3 ℚ) : World :=
  setEnt w a { w a with _scale := sc }

/-- GameEntity.remove (source lines 222-230): if the entity is present in
children (indexOf via reference equality), splice out its first occurrence,
null its parent and mark its world matrix dirty; otherwise do nothing. -/
def removeEnt (w : World) (p c : Nat) : World :=
  if JsRef.entity c ∈ (w p).children then
    let w1 := setEnt w p { w p with children := (w p).children.erase (.entity c) }
    setEnt w1 c { w1 c with parent := .null, _worldMatrixDirty := true }
  else w

/-- GameEntity.add (source lines 206-215): if the entity's parent is non-null,
detach it from that parent first; then append it to this entity's children,
set its parent to this entity and mark its world matrix dirty.  (A string
placeholder in the parent slot would make the JavaScript call throw; in a live
graph the slot is null or an entity reference, and only the latter detaches.) -/
def addEnt (w : World) (p c : Nat) : World :=
  let w1 :=
    match (w c).parent with
    | .entity q => removeEnt w q c
    | _ => w
  let w2 := setEnt w1 p { w1 p with children := (w1 p).children ++ [.entity c] }
  setEnt w2 c { w2 c with parent := .entity p, _worldMatrixDirty := true }

/-- GameEntity._updateLocalMatrix (source lines 468-474): when _localMatrixDirty,
recompose the local matrix from scale/rotation/position, clear the local flag
and set the world flag. -/
def updateLocalMatrix (w : World) (a : Nat) : World :=
  if (w a)._localMatrixDirty then
    setEnt w a
      { w a with
        _localMatrix := matCompose (w a)._scale (w a)._rotation (w a)._position
        _localMatrixDirty := false
        _worldMatrixDirty := true }
  else w

/-- GameEntity._updateWorldMatrix (source lines 476-495): early-return when the
entity's own _worldMatrixDirty is false; otherwise refresh the local matrix,
recursively update the parent when one exists and compose local · parentWorld
(local matrix alone for a root), clear _worldMatrixDirty, set _transformDirty,
and mark every direct child's _worldMatrixDirty.  The JavaScript recursion has
no termination guard (a caller-made cycle loops forever); fuel bounds the
unfolding, and every theorem supplies fuel exceeding the ancestor-chain
length. -/
def updateWorldMatrix : Nat → World → Nat → World
  | 0, w, _ => w
  | fuel + 1, w, a =>
    if (w a)._worldMatrixDirty = false then w
    else
      let w1 := updateLocalMatrix w a
      let w2 :=
        match (w1 a).parent with
        | .entity p =>
          let wp := updateWorldMatrix fuel w1 p
          setEnt wp a
            { wp a with _worldMatrix := matMul (wp a)._localMatrix (wp p)._worldMatrix }
        | _ => setEnt w1 a { w1 a with _worldMatrix := (w1 a)._localMatrix }
      let w3 := setEnt w2 a
        { w2 a with _worldMatrixDirty := false, _transformDirty := true }
      markChildrenDirty w3 (w3 a).children

/-- The public worldMatrix accessor (source lines 167-170): run
_updateWorldMatrix, then return the cached _worldMatrix; the updated heap is
returned alongside since the accessor mutates cache state. -/
def worldMatrixGet (fuel : Nat) (w : World) (a : Nat) : Mat4 ℚ × World :=
  let w1 := updateWorldMatrix fuel w a
  ((w1 a)._worldMatrix, w1)

/-- An externally observable effect of sendMessage: either the single call
this.manager.sendMessage(this, receiver, message, delay, data), or the
console.error diagnostic. -/
inductive MsgEffect where
  | managerSend (manager sender receiver : Nat) (message : String) (delay : ℚ)
      (data : Option String) : MsgEffect
  | consoleError (text : String) : MsgEffect
deriving DecidableEq

/-- GameEntity.sendMessage (source lines 373-380): with a manager attached,
forward (this, receiver, message, delay, data) to manager.sendMessage; with
none, log an error to the console.  Either way the entity heap is unchanged
and the method returns normally. -/
def sendMessage (w : World) (a receiver : Nat) (message : String) (delay : ℚ)
    (data : Option String) : World × List MsgEffect :=
  match (w a).manager with
  | some m => (w, [.managerSend m a receiver message delay data])
  | none =>
    (w, [.consoleError
      "GameEntity: The game entity must be added to a manager to send a message."])

/-- sendMessage called with the trailing parameters omitted: the declared
defaults are delay = 0 and data = null. -/
def sendMessageDefaults (w : World) (a receiver : Nat) (message : String) :
    World × List MsgEffect :=
  sendMessage w a receiver message 0 none

/-- The sixteen lowercase hexadecimal digit characters, in order; index n is
the result of n.toString(16) for n < 16. -/
def hexDigits : List Char := "0123456789abcdef".toList

/-- n.toString(16) for a nibble n. -/
def hexChar (n : Nat) : Char := hexDigits.getD n '0'

/-- The expression (Math.random() * 16) | 0 for one draw r ∈ [0, 1): truncate
r·16 to an integer nibble. -/
def randDigit (r : ℚ) : Nat := (Int.floor (r * 16)).toNat

/-- The template string of _generateUUID. -/
def uuidTemplate : List Char := "xxxxxxxx-xxxx-4xxx-yxxx-xxxxxxxxxxxx".toList

/-- The regex replace of _generateUUID (source lines 525-531): walk the
template; each x or y match consumes one Math.random() draw (rnd k is the
k-th draw) and is replaced by v.toString(16) with v = r for x and
v = (r & 0x3) | 0x8 for y; every other character passes through. -/
def replaceXY (rnd : Nat → ℚ) : List Char → Nat → List Char
  | [], _ => []
  | c :: rest, k =>
    if c = 'x' then hexChar (randDigit (rnd k)) :: replaceXY rnd rest (k + 1)
    else if c = 'y' then
      hexChar ((randDigit (rnd k) &&& 3) ||| 8) :: replaceXY rnd rest (k + 1)
    else c :: replaceXY rnd rest k

/-- GameEntity._generateUUID, with the stream of Math.random() draws made
explicit. -/
def generateUUID (rnd : Nat → ℚ) : String := String.mk (replaceXY rnd uuidTemplate 0)

/-- The uuid accessor (source lines 177-182): generate and store an identifier
on first read, return the stored one ever after. -/
def uuidGet (e : GameEntity) (rnd : Nat → ℚ) : String × GameEntity :=
  match e._uuid with
  | some u => (u, e)
  | none =>
    let u := generateUUID rnd
    (u, { e with _uuid := some u })

/-- Vector3.asArray(). -/
def vec3AsArray (v : Vec3 ℚ) : List ℚ := [v.x, v.y, v.z]

/-- Quaternion.asArray(). -/
def quatAsArray (q : Quat4 ℚ) : List ℚ := [q.x, q.y, q.z, q.w]

/-- Matrix.asArray(): the sixteen entries in storage order. -/
def matAsArray (m : Mat4 ℚ) : List ℚ :=
  [m.m0, m.m1, m.m2, m.m3, m.m4, m.m5, m.m6, m.m7,
   m.m8, m.m9, m.m10, m.m11, m.m12, m.m13, m.m14, m.m15]

/-- Vector3.fromArray (indices 0,1,2). -/
def vec3FromArray (l : List ℚ) : Vec3 ℚ := ⟨l.getD 0 0, l.getD 1 0, l.getD 2 0⟩

/-- Quaternion.fromArray (indices 0..3). -/
def quatFromArray (l : List ℚ) : Quat4 ℚ :=
  ⟨l.getD 0 0, l.getD 1 0, l.getD 2 0, l.getD 3 0⟩

/-- Matrix.fromArray (indices 0..15). -/
def matFromArray (l : List ℚ) : Mat4 ℚ :=
  ⟨l.getD 0 0, l.getD 1 0, l.getD 2 0, l.getD 3 0,
   l.getD 4 0, l.getD 5 0, l.getD 6 0, l.getD 7 0,
   l.getD 8 0, l.getD 9 0, l.getD 10 0, l.getD 11 0,
   l.getD 12 0, l.getD 13 0, l.getD 14 0, l.getD 15 0⟩

/-- The value the uuid accessor yields for an entity: the stored identifier,
or the freshly generated one (supplied here as an explicit argument; the
generator itself is generateUUID) when none is stored yet. -/
def entUuid (e : GameEntity) (fresh : String) : String := e._uuid.getD fresh

/-- GameEntity._entitiesToIds (source lines 533-535): map each referenced
entity to its uuid.  freshFn gives the identifier generation would assign to
an entity that has none yet.  A non-entity entry has no uuid property in
JavaScript; that case cannot occur for the live graphs the serialization
claims quantify over, and is mapped to the empty string. -/
def entitiesToIds (w : World) (freshFn : Nat → String) (l : List JsRef) :
    List String :=
  l.map
    (fun r =>
      match r with
      | .entity b => entUuid (w b) (freshFn b)
      | _ => "")

/-- The plain record produced by GameEntity.toJSON (source lines 386-409);
field _localMatrix keeps its underscored source name as localMatrixField to
stay a legal Lean projection. -/
structure EntityJSON where
  type : String
  uuid : String
  name : String
  active : Bool
  children : List String
  parent : Option String
  neighbors : List String
  neighborhoodRadius : ℚ
  updateNeighborhood : Bool
  position : List ℚ
  rotation : List ℚ
  scale : List ℚ
  forward : List ℚ
  up : List ℚ
  boundingRadius : ℚ
  maxTurnRate : ℚ
  canActivateTrigger : Bool
  worldMatrix : List ℚ
  localMatrixField : List ℚ
  started : Bool
deriving DecidableEq

/-- GameEntity.toJSON (source lines 386-409).  Reading this.worldMatrix runs
the world-matrix update first, so the exported worldMatrix and _localMatrix
come from the updated heap (the record fields are evaluated top to bottom);
the other exported fields are untouched by that update. -/
def toJSON (fuel : Nat) (w : World) (a : Nat) (freshFn : Nat → String) :
    EntityJSON :=
  let wu := updateWorldMatrix fuel w a
  { type := "GameEntity"
    uuid := entUuid (w a) (freshFn a)
    name := (w a).name
    active := (w a).active
    children := entitiesToIds w freshFn (w a).children
    parent :=
      match (w a).parent with
      | .entity p => some (entUuid (w p) (freshFn p))
      | _ => none
    neighbors := entitiesToIds w freshFn (w a).neighbors
    neighborhoodRadius := (w a).neighborhoodRadius
    updateNeighborhood := (w a).updateNeighborhood
    position := vec3AsArray (w a)._position
    rotation := quatAsArray (w a)._rotation
    scale := vec3AsArray (w a)._scale
    forward := vec3AsArray (w a).forward
    up := vec3AsArray (w a).up
    boundingRadius := (w a).boundingRadius
    maxTurnRate := (w a).maxTurnRate
    canActivateTrigger := (w a).canActivateTrigger
    worldMatrix := matAsArray (wu a)._worldMatrix
    localMatrixField := matAsArray (wu a)._localMatrix
    started := (w a)._started }

/-- GameEntity.fromJSON (source lines 416-448): restore every scalar and
transform field from the record, keep children / neighbors / parent as raw
identifier placeholders, install the recorded uuid, and mark both matrix
caches dirty unconditionally. -/
def fromJSON (e : GameEntity) (j : EntityJSON) : GameEntity :=
  { e with
    name := j.name
    active := j.active
    neighborhoodRadius := j.neighborhoodRadius
    updateNeighborhood := j.updateNeighborhood
    _position := vec3FromArray j.position
    _rotation := quatFromArray j.rotation
    _scale := vec3FromArray j.scale
    forward := vec3FromArray j.forward
    up := vec3FromArray j.up
    boundingRadius := j.boundingRadius
    maxTurnRate := j.maxTurnRate
    canActivateTrigger := j.canActivateTrigger
    children := j.children.map .str
    neighbors := j.neighbors.map .str
    parent :=
      match j.parent with
      | some s => .str s
      | none => .null
    _localMatrix := matFromArray j.localMatrixField
    _worldMatrix := matFromArray j.worldMatrix
    _started := j.started
    _uuid := some j.uuid
    _localMatrixDirty := true
    _worldMatrixDirty := true }

/-- Map.get on the identifier-to-entity map: a hit only for a string key that
is present; an entity reference or null key is never a map key, so those
yield undefined. -/
def mapGet (m : List (String × Nat)) (r : JsRef) : Option Nat :=
  (match r with
   | .str s => m.find? (fun p : String × Nat => p.1 == s)
   | _ => none).map Prod.snd

/-- One element of this.children.map((id) => entities.get(id)): a found key
resolves to the entity, anything else to undefined. -/
def resolveRef (m : List (String × Nat)) (r : JsRef) : JsRef :=
  match mapGet m r with
  | some b => .entity b
  | none => .jsUndefined

/-- GameEntity.resolveReferences (source lines 455-464): replace neighbor and
child placeholders via the map, resolve parent via the map with undefined
collapsing to null (entities.get(this.parent) || null), and re-mark the world
matrix dirty. -/
def resolveReferences (e : GameEntity) (m : List (String × Nat)) : GameEntity :=
  { e with
    neighbors := e.neighbors.map (resolveRef m)
    children := e.children.map (resolveRef m)
    parent :=
      match mapGet m e.parent with
      | some b => .entity b
      | none => .null
    _worldMatrixDirty := true }

noncomputable section

namespace RealQuat

/-- Quaternion.Dot. -/
def qdot (a b : Quat4 ℝ) : ℝ := a.x * b.x + a.y * b.y + a.z * b.z + a.w * b.w

/-- Quaternion.length(). -/
def qlength (a : Quat4 ℝ) : ℝ := Real.sqrt (qdot a a)

/-- Componentwise scaling. -/
def qscale (t : ℝ) (a : Quat4 ℝ) : Quat4 ℝ := ⟨t * a.x, t * a.y, t * a.z, t * a.w⟩

/-- Quaternion.normalize(): scale by the reciprocal length (a zero quaternion
is left alone). -/
def qnormalize (a : Quat4 ℝ) : Quat4 ℝ :=
  if qlength a = 0 then a else qscale (1 / qlength a) a

/-- Babylon.js Quaternion.SlerpToRef(left, right, amount): negate-to-shortest
dot, linear weights when the dot exceeds 0.999999, otherwise sine-weighted
spherical interpolation. -/
def slerp (left right : Quat4 ℝ) (amount : ℝ) : Quat4 ℝ :=
  let num4 := qdot left right
  let flag := num4 < 0
  let num4 := if flag then -num4 else num4
  let wts :=
    if num4 > 0.999999 then
      (1 - amount, if flag then -amount else amount)
    else
      let num5 := Real.arccos num4
      let num6 := 1 / Real.sin num5
      (Real.sin ((1 - amount) * num5) * num6,
        if flag then -(Real.sin (amount * num5) * num6)
        else Real.sin (amount * num5) * num6)
  ⟨wts.1 * left.x + wts.2 * right.x,
   wts.1 * left.y + wts.2 * right.y,
   wts.1 * left.z + wts.2 * right.z,
   wts.1 * left.w + wts.2 * right.w⟩

/-- GameEntity._rotateTowards (source lines 507-523), acting on this.rotation
and returning (completed, new rotation).  Both quaternions are normalized in
place first; the angle is 2·acos of the dot clamped to [-1, 1].  Over ℝ the
arccos of a clamped argument is always a number, so the isNaN(angle) disjunct
of the snap guard is identically false and drops out.  In the interpolation
branch the method always returns false. -/
def rotateTowards (rotation targetRotation : Quat4 ℝ) (maxAngle tolerance : ℝ) :
    Bool × Quat4 ℝ :=
  let r := qnormalize rotation
  let t := qnormalize targetRotation
  let dot := qdot r t
  let clampedDot := max (-1) (min 1 dot)
  let angle := 2 * Real.arccos clampedDot
  if angle < tolerance then (true, t)
  else
    let frac := min 1 (maxAngle / angle)
    (false, slerp r t frac)

end RealQuat

namespace Render

/-- The 4×4 determinant (Babylon.js Matrix.determinant(), Laplace expansion
along the first storage row). -/
def matDet (m : Mat4 ℝ) : ℝ :=
  m.m0 * (m.m5 * (m.m10 * m.m15 - m.m14 * m.m11)
          - m.m9 * (m.m6 * m.m15 - m.m14 * m.m7)
          + m.m13 * (m.m6 * m.m11 - m.m10 * m.m7))
  - m.m1 * (m.m4 * (m.m10 * m.m15 - m.m14 * m.m11)
            - m.m8 * (m.m6 * m.m15 - m.m14 * m.m7)
            + m.m12 * (m.m6 * m.m11 - m.m10 * m.m7))
  + m.m2 * (m.m4 * (m.m9 * m.m15 - m.m13 * m.m11)
            - m.m8 * (m.m5 * m.m15 - m.m13 * m.m7)
            + m.m12 * (m.m5 * m.m11 - m.m9 * m.m7))
  - m.m3 * (m.m4 * (m.m9 * m.m14 - m.m13 * m.m10)
            - m.m8 * (m.m5 * m.m14 - m.m13 * m.m6)
            + m.m12 * (m.m5 * m.m10 - m.m9 * m.m6))

/-- Babylon.js Quaternion.FromRotationMatrixToRef: trace-based branch
selection over the 3×3 rotation block (storage indices 0,4,8 / 1,5,9 /
2,6,10). -/
def quatFromRotationMatrix (q : Mat4 ℝ) : Quat4 ℝ :=
  let m11 := q.m0
  let m12 := q.m4
  let m13 := q.m8
  let m21 := q.m1
  let m22 := q.m5
  let m23 := q.m9
  let m31 := q.m2
  let m32 := q.m6
  let m33 := q.m10
  let trace := m11 + m22 + m33
  if trace > 0 then
    let s := 0.5 / Real.sqrt (trace + 1)
    ⟨(m32 - m23) * s, (m13 - m31) * s, (m21 - m12) * s, 0.25 / s⟩
  else if m11 > m22 ∧ m11 > m33 then
    let s := 2 * Real.sqrt (1 + m11 - m22 - m33)
    ⟨0.25 * s, (m12 + m21) / s, (m13 + m31) / s, (m32 - m23) / s⟩
  else if m22 > m33 then
    let s := 2 * Real.sqrt (1 + m22 - m11 - m33)
    ⟨(m12 + m21) / s, 0.25 * s, (m23 + m32) / s, (m13 - m31) / s⟩
  else
    let s := 2 * Real.sqrt (1 + m33 - m11 - m22)
    ⟨(m13 + m31) / s, (m23 + m32) / s, 0.25 * s, (m21 - m12) / s⟩

/-- Babylon.js Matrix.decompose(scale, rotation, translation): translation
from m12..m14, scales as the row norms (y negated for a non-positive
determinant), identity rotation when any scale vanishes, otherwise the
quaternion of the scale-normalized rotation block.  Returns
(scale, rotation, translation). -/
def decomposeM (m : Mat4 ℝ) : Vec3 ℝ × Quat4 ℝ × Vec3 ℝ :=
  let translation : Vec3 ℝ := ⟨m.m12, m.m13, m.m14⟩
  let sx := Real.sqrt (m.m0 * m.m0 + m.m1 * m.m1 + m.m2 * m.m2)
  let sy0 := Real.sqrt (m.m4 * m.m4 + m.m5 * m.m5 + m.m6 * m.m6)
  let sz := Real.sqrt (m.m8 * m.m8 + m.m9 * m.m9 + m.m10 * m.m10)
  let sy := if matDet m ≤ 0 then -sy0 else sy0
  if sx = 0 ∨ sy = 0 ∨ sz = 0 then (⟨sx, sy, sz⟩, qid, translation)
  else
    let isx := 1 / sx
    let isy := 1 / sy
    let isz := 1 / sz
    let rotM : Mat4 ℝ :=
      ⟨m.m0 * isx, m.m1 * isx, m.m2 * isx, 0,
       m.m4 * isy, m.m5 * isy, m.m6 * isy, 0,
       m.m8 * isz, m.m9 * isz, m.m10 * isz, 0,
       0, 0, 0, 1⟩
    (⟨sx, sy, sz⟩, quatFromRotationMatrix rotM, translation)

/-- The callback argument of setRenderComponent: a non-null JavaScript value
that may or may not have typeof "function". -/
structure RCallback where
  isFunction : Bool

/-- The state of one GameEntity of the render-sync variant of the class in
src/unnamed/part_001, field for field from its constructor (this variant
names the scale _scaling and carries a random _debugId; console.debug logging
has no state effect and is not modeled). -/
structure REntity where
  _debugId : String
  name : String
  active : Bool
  children : List JsRef
  parent : JsRef
  neighbors : List JsRef
  neighborhoodRadius : ℝ
  updateNeighborhood : Bool
  _position : Vec3 ℝ
  _rotation : Quat4 ℝ
  _scaling : Vec3 ℝ
  _worldPosition : Vec3 ℝ
  _worldRotation : Quat4 ℝ
  _worldScale : Vec3 ℝ
  forward : Vec3 ℝ
  up : Vec3 ℝ
  boundingRadius : ℝ
  maxTurnRate : ℝ
  canActivateTrigger : Bool
  manager : Option Nat
  _renderComponent : Option Nat
  _renderComponentCallback : Option RCallback
  _localMatrix : Mat4 ℝ
  _worldMatrix : Mat4 ℝ
  _worldMatrixDirty : Bool
  _localMatrixDirty : Bool
  _transformDirty : Bool
  _started : Bool
  _uuid : Option String

/-- The part_001 constructor, with the Math.random-derived _debugId supplied
as an argument. -/
def REntity.init (dbg : String) : REntity :=
  { _debugId := dbg
    name := ""
    active := true
    children := []
    parent := .null
    neighbors := []
    neighborhoodRadius := 1
    updateNeighborhood := false
    _position := vzero
    _rotation := qid
    _scaling := ⟨1, 1, 1⟩
    _worldPosition := vzero
    _worldRotation := qid
    _worldScale := ⟨1, 1, 1⟩
    forward := ⟨0, 0, 1⟩
    up := ⟨0, 1, 0⟩
    boundingRadius := 0
    maxTurnRate := Real.pi
    canActivateTrigger := true
    manager := none
    _renderComponent := none
    _renderComponentCallback := none
    _localMatrix := mzero
    _worldMatrix := mzero
    _worldMatrixDirty := true
    _localMatrixDirty := true
    _transformDirty := true
    _started := false
    _uuid := none }

/-- The part_001 heap. -/
def RWorld : Type := Nat → REntity

/-- In-place record overwrite on the part_001 heap. -/
def rsetEnt (w : RWorld) (a : Nat) (e : REntity) : RWorld :=
  fun b => if b = a then e else w b

/-- The child-marking loop of the part_001 class (same code as in
GameEntity_OLD_2). -/
def rmarkChildrenDirty (w : RWorld) (l : List JsRef) : RWorld :=
  l.foldl
    (fun acc r =>
      match r with
      | .entity c => rsetEnt acc c { acc c with _worldMatrixDirty := true }
      | _ => acc)
    w

/-- part_001 _updateLocalMatrix (lines 238-245): recompose from _scaling,
_rotation, _position when the local flag is set. -/
def rupdateLocalMatrix (w : RWorld) (a : Nat) : RWorld :=
  if (w a)._localMatrixDirty then
    rsetEnt w a
      { w a with
        _localMatrix := matCompose (w a)._scaling (w a)._rotation (w a)._position
        _localMatrixDirty := false
        _worldMatrixDirty := true }
  else w

/-- part_001 _updateWorldMatrix (lines 247-272): identical algorithm to the
GameEntity_OLD_2 version (early return on a clean flag, local refresh, parent
recursion and composition, flag clear, direct children marked). -/
def rupdateWorldMatrix : Nat → RWorld → Nat → RWorld
  | 0, w, _ => w
  | fuel + 1, w, a =>
    if (w a)._worldMatrixDirty = false then w
    else
      let w1 := rupdateLocalMatrix w a
      let w2 :=
        match (w1 a).parent with
        | .entity p =>
          let wp := rupdateWorldMatrix fuel w1 p
          rsetEnt wp a
            { wp a with _worldMatrix := matMul (wp a)._localMatrix (wp p)._worldMatrix }
        | _ => rsetEnt w1 a { w1 a with _worldMatrix := (w1 a)._localMatrix }
      let w3 := rsetEnt w2 a
        { w2 a with _worldMatrixDirty := false, _transformDirty := true }
      rmarkChildrenDirty w3 (w3 a).children

/-- One invocation of the stored render callback: the stored component and
the world position / rotation / scaling handed to it. -/
structure SyncEvent where
  component : Nat
  position : Vec3 ℝ
  rotation : Quat4 ℝ
  scaling : Vec3 ℝ

/-- part_001 _syncEntityToRender (lines 194-234): bail out silently without a
component or callback; otherwise update the world matrix, decompose it into
scaling / rotation / position, and invoke the callback with the component and
those three values (one SyncEvent). -/
def syncEntityToRender (fuel : Nat) (w : RWorld) (a : Nat) :
    RWorld × List SyncEvent :=
  match (w a)._renderComponent with
  | none => (w, [])
  | some comp =>
    match (w a)._renderComponentCallback with
    | none => (w, [])
    | some _ =>
      let w1 := rupdateWorldMatrix fuel w a
      let d := decomposeM ((w1 a)._worldMatrix)
      (w1, [⟨comp, d.2.2, d.2.1, d.1⟩])

/-- part_001 setRenderComponent (lines 173-192): throw "Render component
cannot be null" for a missing component, throw "Render callback must be a
function" for a missing or non-function callback — both before storing
anything — otherwise store the pair and run one immediate synchronization
pass. -/
def setRenderComponent (fuel : Nat) (w : RWorld) (a : Nat)
    (renderComponent : Option Nat) (callback : Option RCallback) :
    Except String (RWorld × List SyncEvent) :=
  match renderComponent with
  | none => .error "Render component cannot be null"
  | some rc =>
    match callback with
    | none => .error "Render callback must be a function"
    | some cb =>
      if cb.isFunction = false then .error "Render callback must be a function"
      else
        let w1 := rsetEnt w a
          { w a with
            _renderComponent := some rc
            _renderComponentCallback := some cb }
        .ok (syncEntityToRender fuel w1 a)

end Render

end

/-- The turn angle 2·acos(clamp(dot, -1, 1)) computed by _rotateTowards from
the normalized current and target orientations. -/
noncomputable def rotAngle (rotation targetRotation : Quat4 ℝ) : ℝ :=
  2 * Real.arccos (max (-1) (min 1
    (RealQuat.qdot (RealQuat.qnormalize rotation) (RealQuat.qnormalize targetRotation))))

/-- What one character of the uuid template demands of the generated
character: an x position demands a lowercase hexadecimal digit, the y
position demands one of 8, 9, a, b (variant nibble), and every other
position (the dashes and the literal version nibble 4) demands that exact
character. -/
def charMatches (t c : Char) : Prop :=
  if t = 'x' then c ∈ hexDigits
  else if t = 'y' then c ∈ ['8', '9', 'a', 'b']
  else c = t

/-- An identifier string matches the pattern xxxxxxxx-xxxx-4xxx-yxxx-xxxxxxxxxxxx
in lowercase hexadecimal: characterwise agreement with the template. -/
def matchesUuidPattern (s : String) : Prop :=
  List.Forall₂ charMatches uuidTemplate s.data

/-- A heap holding only freshly constructed entities. -/
def wChain0 : World := fun _ => GameEntity.init

/-- Heap after (entity 0).add(entity 1). -/
def wChain1 : World := addEnt wChain0 0 1

/-- Heap after additionally (entity 1).add(entity 2): the chain 0 → 1 → 2. -/
def wChain2 : World := addEnt wChain1 1 2

/-- Heap after reading entity 2's worldMatrix accessor on the chain: every
cache on the chain is clean. -/
def wClean : World := (worldMatrixGet 5 wChain2 2).2

/-- Heap after then assigning position (1,0,0) to the root (entity 0) through
the position setter. -/
def wWritten : World := setPosition wClean 0 ⟨1, 0, 0⟩

/-- A two-entity heap (1 is the only child of 0) used to exercise add's
re-parenting. -/
def wW4 : World := fun b =>
  if b = 0 then { GameEntity.init with children := [.entity 1] }
  else if b = 1 then { GameEntity.init with parent := .entity 0 }
  else GameEntity.init

/-- A heap whose entity 0 is attached to a manager (token 3). -/
def wMgr : World := fun b =>
  if b = 0 then { GameEntity.init with manager := some 3 } else GameEntity.init

/-- A three-entity heap with stored identifiers, used to exercise the
serialization round trip: entity 0 named "root" at position (5,6,7) with
child entity 1 and neighbor entity 2. -/
def wSer : World := fun b =>
  if b = 0 then
    { GameEntity.init with
      _uuid := some "u0"
      name := "root"
      _position := ⟨5, 6, 7⟩
      children := [.entity 1]
      neighbors := [.entity 2] }
  else if b = 1 then { GameEntity.init with _uuid := some "u1" }
  else if b = 2 then { GameEntity.init with _uuid := some "u2" }
  else GameEntity.init

/-- The identifier-to-entity map for wSer's references. -/
def mSer : List (String × Nat) := [("u1", 1), ("u2", 2)]

/-- A heap of freshly constructed part_001 entities. -/
noncomputable def rw0 : Render.RWorld := fun _ => Render.REntity.init "d"

theorem setEnt_same (w : World) (a : Nat) (e : GameEntity) :
    setEnt w a e a = e := by
  simp [setEnt]

theorem setEnt_other (w : World) (a : Nat) (e : GameEntity) (b : Nat)
    (h : b ≠ a) : setEnt w a e b = w b := by
  simp [setEnt, h]

theorem markChildrenDirty_cons (w : World) (r : JsRef) (rest : List JsRef) :
    markChildrenDirty w (r :: rest) =
      markChildrenDirty
        (match r with
         | .entity c => setEnt w c { w c with _worldMatrixDirty := true }
         | _ => w)
        rest := rfl

theorem markChildrenDirty_apply (l : List JsRef) (w : World) (b : Nat) :
    markChildrenDirty w l b =
      if JsRef.entity b ∈ l then { w b with _worldMatrixDirty := true }
      else w b := by
  induction l generalizing w with
  | nil => simp [markChildrenDirty]
  | cons r rest ih =>
    rw [markChildrenDirty_cons]
    cases r with
    | entity c =>
      rw [ih]
      by_cases hbc : b = c
      · subst hbc
        by_cases hm : JsRef.entity b ∈ rest <;>
          simp [hm, setEnt]
      · have hb : (setEnt w c { w c with _worldMatrixDirty := true }) b = w b :=
          setEnt_other _ _ _ _ hbc
        by_cases hm : JsRef.entity b ∈ rest <;>
          simp [hm, hb, hbc]
    | null => rw [ih]; simp
    | str s => rw [ih]; simp
    | jsUndefined => rw [ih]; simp

theorem markDirty_self (w : World) (a : Nat) :
    (markDirty w a) a =
      { w a with _localMatrixDirty := true, _worldMatrixDirty := true } := by
  simp only [markDirty, markChildrenDirty_apply, setEnt_same]
  split_ifs <;> rfl

theorem markDirty_other (w : World) (a b : Nat) (h : b ≠ a) :
    (markDirty w a) b =
      if JsRef.entity b ∈ (w a).children then { w b with _worldMatrixDirty := true }
      else w b := by
  simp only [markDirty, markChildrenDirty_apply, setEnt_same, setEnt_other _ _ _ _ h]

/-- C8: remove of an entity that is absent from this entity's children is a
complete no-op: the heap is unchanged, so the children sequence, the removed
candidate's parent reference and its dirty flags are all untouched, and no
error is raised (the method returns normally). -/
theorem remove_absent_noop (w : World) (p c : Nat)
    (h : JsRef.entity c ∉ (w p).children) :
    removeEnt w p c = w ∧
    ((removeEnt w p c) p).children = (w p).children ∧
    ((removeEnt w p c) c).parent = (w c).parent ∧
    ((removeEnt w p c) c)._worldMatrixDirty = (w c)._worldMatrixDirty ∧
    ((removeEnt w p c) c)._localMatrixDirty = (w c)._localMatrixDirty := by
  have he : removeEnt w p c = w := by simp [removeEnt, h]
  exact ⟨he, by rw [he], by rw [he], by rw [he], by rw [he]⟩

theorem remove_absent_noop_witness :
    JsRef.entity 1 ∉ (wChain0 0).children ∧ removeEnt wChain0 0 1 = wChain0 := by
  have h : JsRef.entity 1 ∉ (wChain0 0).children := by
    simp [wChain0, GameEntity.init]
  exact ⟨h, (remove_absent_noop wChain0 0 1 h).1⟩

/-- C7: with a manager attached, sendMessage performs exactly one call of the
manager's sendMessage with exactly (this, receiver, message, delay, data) in
that order and leaves the heap unchanged; with no manager it emits exactly
one console diagnostic, changes nothing, and returns normally; the declared
defaults are delay = 0 and data = null. -/
theorem sendMessage_spec (w : World) (a receiver : Nat) (message : String)
    (delay : ℚ) (data : Option String) :
    (∀ m, (w a).manager = some m →
      sendMessage w a receiver message delay data =
        (w, [.managerSend m a receiver message delay data])) ∧
    ((w a).manager = none →
      sendMessage w a receiver message delay data =
        (w, [.consoleError
          "GameEntity: The game entity must be added to a manager to send a message."])) ∧
    sendMessageDefaults w a receiver message =
      sendMessage w a receiver message 0 none := by
  refine ⟨?_, ?_, rfl⟩
  · intro m hm; simp [sendMessage, hm]
  · intro hm; simp [sendMessage, hm]

theorem sendMessage_spec_witness :
    (wMgr 0).manager = some 3 ∧
    sendMessage wMgr 0 1 "hello" 2 none =
      (wMgr, [.managerSend 3 0 1 "hello" 2 none]) ∧
    (wMgr 1).manager = none ∧
    sendMessage wMgr 1 0 "hello" 0 none =
      (wMgr, [.consoleError
        "GameEntity: The game entity must be added to a manager to send a message."]) := by
  have h0 : (wMgr 0).manager = some 3 := by simp [wMgr]
  have h1 : (wMgr 1).manager = none := by simp [wMgr, GameEntity.init]
  exact ⟨h0, (sendMessage_spec wMgr 0 1 "hello" 2 none).1 3 h0, h1,
    (sendMessage_spec wMgr 1 0 "hello" 0 none).2.1 h1⟩

/-- C10: the position, rotation and scale getters return the internal mutable
objects, so mutating the returned object in place changes the stored local
transform while bypassing change detection completely — no dirty flag changes
on the entity (hence on no descendant either, since every other heap record
is untouched) and no cached matrix is invalidated — unlike an assignment
through the corresponding setter, which raises both of the entity's dirty
flags when the value differs beyond tolerance. -/
theorem transform_getter_alias_spec (w : World) (a : Nat) (v : Vec3 ℚ)
    (q : Quat4 ℚ) (sc : Vec3 ℚ) :
    ((positionSetInPlace w a v) a)._position = v ∧
    (∀ b, b ≠ a → positionSetInPlace w a v b = w b) ∧
    ((positionSetInPlace w a v) a)._localMatrixDirty = (w a)._localMatrixDirty ∧
    ((positionSetInPlace w a v) a)._worldMatrixDirty = (w a)._worldMatrixDirty ∧
    ((positionSetInPlace w a v) a)._localMatrix = (w a)._localMatrix ∧
    ((positionSetInPlace w a v) a)._worldMatrix = (w a)._worldMatrix ∧
    ((rotationSetInPlace w a q) a)._rotation = q ∧
    (∀ b, b ≠ a → rotationSetInPlace w a q b = w b) ∧
    ((rotationSetInPlace w a q) a)._localMatrixDirty = (w a)._localMatrixDirty ∧
    ((rotationSetInPlace w a q) a)._worldMatrixDirty = (w a)._worldMatrixDirty ∧
    ((rotationSetInPlace w a q) a)._localMatrix = (w a)._localMatrix ∧
    ((rotationSetInPlace w a q) a)._worldMatrix = (w a)._worldMatrix ∧
    ((scaleSetInPlace w a sc) a)._scale = sc ∧
    (∀ b, b ≠ a → scaleSetInPlace w a sc b = w b) ∧
    ((scaleSetInPlace w a sc) a)._localMatrixDirty = (w a)._localMatrixDirty ∧
    ((scaleSetInPlace w a sc) a)._worldMatrixDirty = (w a)._worldMatrixDirty ∧
    ((scaleSetInPlace w a sc) a)._localMatrix = (w a)._localMatrix ∧
    ((scaleSetInPlace w a sc) a)._worldMatrix = (w a)._worldMatrix ∧
    (vec3EqualsWithEpsilon (w a)._position v epsilonTol = false →
      ((setPosition w a v) a)._localMatrixDirty = true ∧
      ((setPosition w a v) a)._worldMatrixDirty = true) ∧
    (quatEqualsWithEpsilon (w a)._rotation q epsilonTol = false →
      ((setRotation w a q) a)._localMatrixDirty = true ∧
      ((setRotation w a q) a)._worldMatrixDirty = true) ∧
    (vec3EqualsWithEpsilon (w a)._scale sc epsilonTol = false →
      ((setScale w a sc) a)._localMatrixDirty = true ∧
      ((setScale w a sc) a)._worldMatrixDirty = true) := by
  refine ⟨by simp [positionSetInPlace, setEnt],
    fun b hb => setEnt_other _ _ _ _ hb,
    by simp [positionSetInPlace, setEnt],
    by simp [positionSetInPlace, setEnt],
    by simp [positionSetInPlace, setEnt],
    by simp [positionSetInPlace, setEnt],
    by simp [rotationSetInPlace, setEnt],
    fun b hb => setEnt_other _ _ _ _ hb,
    by simp [rotationSetInPlace, setEnt],
    by simp [rotationSetInPlace, setEnt],
    by simp [rotationSetInPlace, setEnt],
    by simp [rotationSetInPlace, setEnt],
    by simp [scaleSetInPlace, setEnt],
    fun b hb => setEnt_other _ _ _ _ hb,
    by simp [scaleSetInPlace, setEnt],
    by simp [scaleSetInPlace, setEnt],
    by simp [scaleSetInPlace, setEnt],
    by simp [scaleSetInPlace, setEnt],
    ?_, ?_, ?_⟩
  · intro h
    have hs : setPosition w a v =
        markDirty (setEnt w a { w a with _position := v }) a := by
      simp [setPosition, h]
    rw [hs, markDirty_self]
    simp
  · intro h
    have hs : setRotation w a q =
        markDirty (setEnt w a { w a with _rotation := q }) a := by
      simp [setRotation, h]
    rw [hs, markDirty_self]
    simp
  · intro h
    have hs : setScale w a sc =
        markDirty (setEnt w a { w a with _scale := sc }) a := by
      simp [setScale, h]
    rw [hs, markDirty_self]
    simp

theorem transform_getter_alias_spec_witness :
    ((positionSetInPlace wChain0 0 ⟨1, 0, 3⟩) 0)._position = ⟨1, 0, 3⟩ ∧
    ((positionSetInPlace wChain0 0 ⟨1, 0, 3⟩) 0)._worldMatrixDirty =
      (wChain0 0)._worldMatrixDirty ∧
    ((rotationSetInPlace wChain0 0 ⟨0, 1, 0, 0⟩) 0)._rotation = ⟨0, 1, 0, 0⟩ ∧
    ((rotationSetInPlace wChain0 0 ⟨0, 1, 0, 0⟩) 0)._worldMatrixDirty =
      (wChain0 0)._worldMatrixDirty ∧
    ((scaleSetInPlace wChain0 0 ⟨1, 3, 1⟩) 0)._scale = ⟨1, 3, 1⟩ ∧
    ((scaleSetInPlace wChain0 0 ⟨1, 3, 1⟩) 0)._worldMatrixDirty =
      (wChain0 0)._worldMatrixDirty ∧
    vec3EqualsWithEpsilon (wChain0 0)._scale ⟨1, 3, 1⟩ epsilonTol = false ∧
    ((setScale wChain0 0 ⟨1, 3, 1⟩) 0)._localMatrixDirty = true := by
  have h : vec3EqualsWithEpsilon (wChain0 0)._scale ⟨1, 3, 1⟩ epsilonTol = false := by
    norm_num [wChain0, GameEntity.init, vec3EqualsWithEpsilon, withinEpsilon,
      epsilonTol]
  obtain ⟨p1, p2, p3, p4, p5, p6, r1, r2, r3, r4, r5, r6, s1, s2, s3, s4, s5,
    s6, cp, cr, cs⟩ :=
    transform_getter_alias_spec wChain0 0 ⟨1, 0, 3⟩ ⟨0, 1, 0, 0⟩ ⟨1, 3, 1⟩
  exact ⟨p1, p4, r1, r4, s1, s4, h, (cs h).1⟩

theorem markDirty_setEnt_spec (w : World) (a : Nat) (e : GameEntity)
    (hch : e.children = (w a).children) :
    (markDirty (setEnt w a e) a) a =
      { e with _localMatrixDirty := true, _worldMatrixDirty := true } ∧
    (∀ b, b ≠ a → JsRef.entity b ∈ (w a).children →
      (markDirty (setEnt w a e) a) b = { w b with _worldMatrixDirty := true }) ∧
    (∀ b, b ≠ a → JsRef.entity b ∉ (w a).children →
      (markDirty (setEnt w a e) a) b = w b) := by
  refine ⟨?_, ?_, ?_⟩
  · rw [markDirty_self, setEnt_same]
  · intro b hb hm
    rw [markDirty_other _ _ _ hb, setEnt_same, hch, setEnt_other _ _ _ _ hb,
      if_pos hm]
  · intro b hb hm
    rw [markDirty_other _ _ _ hb, setEnt_same, hch, setEnt_other _ _ _ _ hb,
      if_neg hm]

/-- C2 (amended): assigning position, rotation or scale through the setter
with a value within the per-component tolerance 0.0001 of the current value
is a pure no-op (the heap is returned unchanged); with a value beyond the
tolerance it stores the value and sets this entity's local-dirty and
world-dirty flags, sets world-dirty (only) on the entity's direct children
only — deeper descendants and every other entity, ancestors included, are
untouched at write time (descendants beyond depth one are dirtied lazily,
when an ancestor's world matrix is later recomputed). -/
theorem setter_dirty_spec (w : World) (a : Nat) (v : Vec3 ℚ) (q : Quat4 ℚ)
    (sc : Vec3 ℚ) :
    (vec3EqualsWithEpsilon (w a)._position v epsilonTol = true →
      setPosition w a v = w) ∧
    (vec3EqualsWithEpsilon (w a)._position v epsilonTol = false →
      (setPosition w a v) a =
        { w a with _position := v, _localMatrixDirty := true,
                   _worldMatrixDirty := true } ∧
      (∀ b, b ≠ a → JsRef.entity b ∈ (w a).children →
        (setPosition w a v) b = { w b with _worldMatrixDirty := true }) ∧
      (∀ b, b ≠ a → JsRef.entity b ∉ (w a).children →
        (setPosition w a v) b = w b)) ∧
    (quatEqualsWithEpsilon (w a)._rotation q epsilonTol = true →
      setRotation w a q = w) ∧
    (quatEqualsWithEpsilon (w a)._rotation q epsilonTol = false →
      (setRotation w a q) a =
        { w a with _rotation := q, _localMatrixDirty := true,
                   _worldMatrixDirty := true } ∧
      (∀ b, b ≠ a → JsRef.entity b ∈ (w a).children →
        (setRotation w a q) b = { w b with _worldMatrixDirty := true }) ∧
      (∀ b, b ≠ a → JsRef.entity b ∉ (w a).children →
        (setRotation w a q) b = w b)) ∧
    (vec3EqualsWithEpsilon (w a)._scale sc epsilonTol = true →
      setScale w a sc = w) ∧
    (vec3EqualsWithEpsilon (w a)._scale sc epsilonTol = false →
      (setScale w a sc) a =
        { w a with _scale := sc, _localMatrixDirty := true,
                   _worldMatrixDirty := true } ∧
      (∀ b, b ≠ a → JsRef.entity b ∈ (w a).children →
        (setScale w a sc) b = { w b with _worldMatrixDirty := true }) ∧
      (∀ b, b ≠ a → JsRef.entity b ∉ (w a).children →
        (setScale w a sc) b = w b)) := by
  refine ⟨fun h => by simp [setPosition, h], fun h => ?_,
    fun h => by simp [setRotation, h], fun h => ?_,
    fun h => by simp [setScale, h], fun h => ?_⟩
  · have hs : setPosition w a v = markDirty (setEnt w a { w a with _position := v }) a := by
      simp [setPosition, h]
    rw [hs]
    exact markDirty_setEnt_spec w a _ rfl
  · have hs : setRotation w a q = markDirty (setEnt w a { w a with _rotation := q }) a := by
      simp [setRotation, h]
    rw [hs]
    exact markDirty_setEnt_spec w a _ rfl
  · have hs : setScale w a sc = markDirty (setEnt w a { w a with _scale := sc }) a := by
      simp [setScale, h]
    rw [hs]
    exact markDirty_setEnt_spec w a _ rfl

theorem setter_dirty_spec_witness :
    vec3EqualsWithEpsilon (wW4 0)._position ⟨1, 0, 0⟩ epsilonTol = false ∧
    ((setPosition wW4 0 ⟨1, 0, 0⟩) 0)._localMatrixDirty = true ∧
    ((setPosition wW4 0 ⟨1, 0, 0⟩) 0)._worldMatrixDirty = true ∧
    (setPosition wW4 0 ⟨1, 0, 0⟩) 1 = { wW4 1 with _worldMatrixDirty := true } ∧
    (setPosition wW4 0 ⟨1, 0, 0⟩) 2 = wW4 2 := by
  have h : vec3EqualsWithEpsilon (wW4 0)._position ⟨1, 0, 0⟩ epsilonTol = false := by
    norm_num [wW4, GameEntity.init, vec3EqualsWithEpsilon, withinEpsilon,
      epsilonTol, vzero]
  have hm : JsRef.entity 1 ∈ (wW4 0).children := by simp [wW4]
  have hnm : JsRef.entity 2 ∉ (wW4 0).children := by simp [wW4]
  have parts := (setter_dirty_spec wW4 0 ⟨1, 0, 0⟩ qid vzero).2.1 h
  refine ⟨h, ?_, ?_, parts.2.1 1 (by norm_num) hm, parts.2.2 2 (by norm_num) hnm⟩
  · rw [parts.1]
  · rw [parts.1]

/-- C2: the claim's "world-dirty on every descendant, recursively" fails at a
concrete input: on the clean chain 0 → 1 → 2, writing position (1,0,0)
beyond tolerance to the root marks the direct child (entity 1) world-dirty
but leaves the grandchild's (entity 2) world-dirty flag false. -/
theorem dirty_not_recursive_cex :
    (wClean 0).children = [JsRef.entity 1] ∧
    (wClean 1).children = [JsRef.entity 2] ∧
    (wClean 0)._worldMatrixDirty = false ∧
    (wClean 1)._worldMatrixDirty = false ∧
    (wClean 2)._worldMatrixDirty = false ∧
    vec3EqualsWithEpsilon (wClean 0)._position ⟨1, 0, 0⟩ epsilonTol = false ∧
    (wWritten 0)._worldMatrixDirty = true ∧
    (wWritten 1)._worldMatrixDirty = true ∧
    (wWritten 2)._worldMatrixDirty = false := by
  norm_num [wWritten, wClean, wChain2, wChain1, wChain0, worldMatrixGet,
    updateWorldMatrix, updateLocalMatrix, setPosition, markDirty,
    markChildrenDirty, addEnt, removeEnt, setEnt, GameEntity.init, matCompose,
    matMul, vec3EqualsWithEpsilon, withinEpsilon, epsilonTol, vzero, qid, mzero]

/-- C1: at the failing input the claim is violated.  On the clean chain
0 → 1 → 2 the root's position is set to (1,0,0) through the setter; the
subsequent read of the grandchild's worldMatrix accessor runs the update but
returns the cached matrix unchanged — translation (0,0,0), heap untouched —
while the grandchild's current local matrix composed with its parent's
current world matrix (what the parent's accessor returns, translation
(1,0,0)) differs: the caller observes a world matrix computed from the
grandparent's superseded local transform. -/
theorem worldMatrix_stale_read :
    matTranslation (worldMatrixGet 5 wWritten 2).1 = ⟨0, 0, 0⟩ ∧
    matTranslation (worldMatrixGet 5 wWritten 1).1 = ⟨1, 0, 0⟩ ∧
    (worldMatrixGet 5 wWritten 2).2 = wWritten ∧
    (worldMatrixGet 5 wWritten 2).1 ≠
      matMul (wWritten 2)._localMatrix (worldMatrixGet 5 wWritten 1).1 := by
  norm_num [wWritten, wClean, wChain2, wChain1, wChain0, worldMatrixGet,
    updateWorldMatrix, updateLocalMatrix, setPosition, markDirty,
    markChildrenDirty, addEnt, removeEnt, setEnt, GameEntity.init, matCompose,
    matMul, matTranslation, vec3EqualsWithEpsilon, withinEpsilon, epsilonTol,
    vzero, qid, mzero]

theorem removeEnt_children_apply (w : World) (q c : Nat)
    (h : JsRef.entity c ∈ (w q).children) (b : Nat) :
    ((removeEnt w q c) b).children =
      if b = q then (w q).children.erase (.entity c) else (w b).children := by
  simp only [removeEnt, if_pos h, setEnt]
  by_cases hbc : b = c <;> by_cases hbq : b = q <;> simp_all

theorem removeEnt_parent_apply (w : World) (q c : Nat)
    (h : JsRef.entity c ∈ (w q).children) (b : Nat) :
    ((removeEnt w q c) b).parent =
      if b = c then .null else (w b).parent := by
  simp only [removeEnt, if_pos h, setEnt]
  by_cases hbc : b = c <;> by_cases hbq : b = q <;> simp_all

theorem addEnt_children_apply (w : World) (p c q : Nat)
    (hq : (w c).parent = .entity q) (hmem : JsRef.entity c ∈ (w q).children)
    (b : Nat) :
    ((addEnt w p c) b).children =
      if b = p then
        (if p = q then (w q).children.erase (.entity c) else (w p).children)
          ++ [.entity c]
      else if b = q then (w q).children.erase (.entity c)
      else (w b).children := by
  have hrc := removeEnt_children_apply w q c hmem
  unfold addEnt
  rw [hq]
  simp only [setEnt]
  by_cases hbc : b = c <;> by_cases hbp : b = p <;> by_cases hcp : c = p <;>
    simp_all

theorem addEnt_parent_apply (w : World) (p c q : Nat)
    (hq : (w c).parent = .entity q) (hmem : JsRef.entity c ∈ (w q).children)
    (b : Nat) :
    ((addEnt w p c) b).parent =
      if b = c then .entity p else (w b).parent := by
  have hrp := removeEnt_parent_apply w q c hmem
  unfold addEnt
  rw [hq]
  simp only [setEnt]
  by_cases hbc : b = c <;> by_cases hbp : b = p <;> by_cases hcp : c = p <;>
    simp_all

theorem addEnt_dirty_child (w : World) (p c : Nat) :
    ((addEnt w p c) c)._worldMatrixDirty = true := by
  unfold addEnt
  cases hpar : (w c).parent <;> simp [setEnt]

/-- C4: on a consistent heap (children lists duplicate-free, and membership
of x in y's children exactly when x's parent is y), add(c) on p where c
already has a parent q — possibly q = p — detaches c from q and attaches it
to p: afterwards c's parent is p, c's world matrix is marked dirty, p's
children sequence ends with c preceded by a list not containing c, c occurs
exactly once in p's children and in no other entity's children, and when
q ≠ p the old parent q no longer contains c. -/
theorem add_reparents_spec (w : World) (p c q : Nat)
    (hq : (w c).parent = .entity q)
    (hnd : ∀ x, ((w x).children).Nodup)
    (hcons : ∀ x y, JsRef.entity x ∈ (w y).children ↔ (w x).parent = .entity y) :
    ((addEnt w p c) c).parent = .entity p ∧
    ((addEnt w p c) c)._worldMatrixDirty = true ∧
    (∃ pre, ((addEnt w p c) p).children = pre ++ [.entity c] ∧
      JsRef.entity c ∉ pre) ∧
    (((addEnt w p c) p).children).getLast? = some (.entity c) ∧
    (((addEnt w p c) p).children).count (.entity c) = 1 ∧
    (∀ r, JsRef.entity c ∈ ((addEnt w p c) r).children → r = p) ∧
    (q ≠ p → JsRef.entity c ∉ ((addEnt w p c) q).children) := by
  have hmem : JsRef.entity c ∈ (w q).children := (hcons c q).mpr hq
  have hch := addEnt_children_apply w p c q hq hmem
  have hpar := addEnt_parent_apply w p c q hq hmem
  have hpre : JsRef.entity c ∉
      (if p = q then (w q).children.erase (.entity c) else (w p).children) := by
    by_cases hpq : p = q
    · subst hpq
      simp only [if_pos rfl]
      exact (hnd p).not_mem_erase
    · simp only [if_neg hpq]
      intro hmm
      have hcp := (hcons c p).mp hmm
      rw [hq] at hcp
      injection hcp with hqp
      exact hpq hqp.symm
  have hchp : ((addEnt w p c) p).children =
      (if p = q then (w q).children.erase (.entity c) else (w p).children)
        ++ [.entity c] := by
    rw [hch p, if_pos rfl]
  have hcount : (((addEnt w p c) p).children).count (.entity c) = 1 := by
    rw [hchp]
    simp [List.count_append, List.count_eq_zero.mpr hpre]
  have hlast : (((addEnt w p c) p).children).getLast? = some (.entity c) := by
    rw [hchp]
    simp [List.getLast?_concat]
  have honly : ∀ r, JsRef.entity c ∈ ((addEnt w p c) r).children → r = p := by
    intro r hr
    by_cases hrp : r = p
    · exact hrp
    · exfalso
      rw [hch r, if_neg hrp] at hr
      by_cases hrq : r = q
      · rw [if_pos hrq] at hr
        exact (hnd q).not_mem_erase hr
      · rw [if_neg hrq] at hr
        have hcr := (hcons c r).mp hr
        rw [hq] at hcr
        injection hcr with hqr
        exact hrq hqr.symm
  refine ⟨?_, addEnt_dirty_child w p c, ⟨_, hchp, hpre⟩, hlast, hcount, honly, ?_⟩
  · rw [hpar c, if_pos rfl]
  · intro hqp hin
    exact hqp (honly q hin)

theorem add_reparents_spec_witness :
    (wW4 1).parent = .entity 0 ∧
    ((addEnt wW4 2 1) 1).parent = .entity 2 ∧
    (((addEnt wW4 2 1) 2).children).getLast? = some (.entity 1) ∧
    (((addEnt wW4 2 1) 2).children).count (.entity 1) = 1 ∧
    JsRef.entity 1 ∉ ((addEnt wW4 2 1) 0).children := by
  have hq : (wW4 1).parent = .entity 0 := by simp [wW4]
  have hnd : ∀ x, ((wW4 x).children).Nodup := by
    intro x
    by_cases hx0 : x = 0 <;> by_cases hx1 : x = 1 <;>
      simp [wW4, hx0, hx1, GameEntity.init]
  have hcons : ∀ x y,
      JsRef.entity x ∈ (wW4 y).children ↔ (wW4 x).parent = .entity y := by
    intro x y
    by_cases hy : y = 0 <;> by_cases hy1 : y = 1 <;> by_cases hx0 : x = 0 <;>
      by_cases hx1 : x = 1 <;> simp_all [wW4, GameEntity.init, eq_comm]
  have hs := add_reparents_spec wW4 2 1 0 hq hnd hcons
  exact ⟨hq, hs.1, hs.2.2.2.1, hs.2.2.2.2.1, hs.2.2.2.2.2.2 (by norm_num)⟩

theorem vec3FromArray_asArray (v : Vec3 ℚ) : vec3FromArray (vec3AsArray v) = v := by
  cases v
  simp [vec3AsArray, vec3FromArray]

/-- C5: exporting an entity with toJSON, importing the record into a fresh
entity with fromJSON and resolving against an identifier-to-entity map that
contains each referenced entity under its stored identifier round-trips
exactly: name, position, the entity's own identifier, and the
parent / children / neighbors references are restored to the original
entities; and fromJSON marks both matrix caches dirty unconditionally, so
the first world-matrix read after import recomputes from the restored
transform instead of trusting the deserialized matrix snapshot. -/
theorem serialization_roundtrip_spec (fuel : Nat) (w : World) (a : Nat)
    (freshFn : Nat → String) (m : List (String × Nat)) (u : String)
    (hu : (w a)._uuid = some u)
    (hchil : ∀ r ∈ (w a).children, ∃ b s, r = JsRef.entity b ∧
      (w b)._uuid = some s ∧ mapGet m (.str s) = some b)
    (hneigh : ∀ r ∈ (w a).neighbors, ∃ b s, r = JsRef.entity b ∧
      (w b)._uuid = some s ∧ mapGet m (.str s) = some b)
    (hpar : (w a).parent = .null ∨ ∃ pq s, (w a).parent = JsRef.entity pq ∧
      (w pq)._uuid = some s ∧ mapGet m (.str s) = some pq) :
    (fromJSON GameEntity.init (toJSON fuel w a freshFn))._localMatrixDirty = true ∧
    (fromJSON GameEntity.init (toJSON fuel w a freshFn))._worldMatrixDirty = true ∧
    (resolveReferences (fromJSON GameEntity.init (toJSON fuel w a freshFn)) m).name
      = (w a).name ∧
    (resolveReferences (fromJSON GameEntity.init (toJSON fuel w a freshFn)) m)._position
      = (w a)._position ∧
    (resolveReferences (fromJSON GameEntity.init (toJSON fuel w a freshFn)) m)._uuid
      = some u ∧
    (resolveReferences (fromJSON GameEntity.init (toJSON fuel w a freshFn)) m).children
      = (w a).children ∧
    (resolveReferences (fromJSON GameEntity.init (toJSON fuel w a freshFn)) m).neighbors
      = (w a).neighbors ∧
    (resolveReferences (fromJSON GameEntity.init (toJSON fuel w a freshFn)) m).parent
      = (w a).parent := by
  refine ⟨rfl, rfl, rfl, ?_, ?_, ?_, ?_, ?_⟩
  · show vec3FromArray (vec3AsArray (w a)._position) = (w a)._position
    exact vec3FromArray_asArray _
  · show some (entUuid (w a) (freshFn a)) = some u
    simp [entUuid, hu]
  · show ((entitiesToIds w freshFn (w a).children).map JsRef.str).map (resolveRef m)
      = (w a).children
    rw [List.map_map, entitiesToIds, List.map_map]
    refine List.map_congr_left ?_ |>.trans (List.map_id _)
    intro r hr
    rcases hchil r hr with ⟨b, s, hrb, hbs, hms⟩
    subst hrb
    simp [Function.comp, entUuid, hbs, resolveRef, hms]
  · show ((entitiesToIds w freshFn (w a).neighbors).map JsRef.str).map (resolveRef m)
      = (w a).neighbors
    rw [List.map_map, entitiesToIds, List.map_map]
    refine List.map_congr_left ?_ |>.trans (List.map_id _)
    intro r hr
    rcases hneigh r hr with ⟨b, s, hrb, hbs, hms⟩
    subst hrb
    simp [Function.comp, entUuid, hbs, resolveRef, hms]
  · rcases hpar with hnull | ⟨pq, s, hpq, hps, hms⟩
    · show (match mapGet m (match (match (w a).parent with
        | JsRef.entity p => some (entUuid (w p) (freshFn p))
        | _ => none) with
        | some s => JsRef.str s
        | none => JsRef.null) with
        | some b => JsRef.entity b
        | none => JsRef.null) = (w a).parent
      rw [hnull]
      simp [mapGet]
    · show (match mapGet m (match (match (w a).parent with
        | JsRef.entity p => some (entUuid (w p) (freshFn p))
        | _ => none) with
        | some s => JsRef.str s
        | none => JsRef.null) with
        | some b => JsRef.entity b
        | none => JsRef.null) = (w a).parent
      rw [hpq]
      simp [entUuid, hps, hms]

theorem serialization_roundtrip_spec_witness :
    (wSer 0)._uuid = some "u0" ∧
    (fromJSON GameEntity.init (toJSON 3 wSer 0 (fun _ => "f")))._localMatrixDirty
      = true ∧
    (fromJSON GameEntity.init (toJSON 3 wSer 0 (fun _ => "f")))._worldMatrixDirty
      = true ∧
    (resolveReferences (fromJSON GameEntity.init (toJSON 3 wSer 0 (fun _ => "f")))
      mSer).name = "root" ∧
    (resolveReferences (fromJSON GameEntity.init (toJSON 3 wSer 0 (fun _ => "f")))
      mSer)._position = ⟨5, 6, 7⟩ ∧
    (resolveReferences (fromJSON GameEntity.init (toJSON 3 wSer 0 (fun _ => "f")))
      mSer)._uuid = some "u0" ∧
    (resolveReferences (fromJSON GameEntity.init (toJSON 3 wSer 0 (fun _ => "f")))
      mSer).children = [JsRef.entity 1] ∧
    (resolveReferences (fromJSON GameEntity.init (toJSON 3 wSer 0 (fun _ => "f")))
      mSer).neighbors = [JsRef.entity 2] ∧
    (resolveReferences (fromJSON GameEntity.init (toJSON 3 wSer 0 (fun _ => "f")))
      mSer).parent = JsRef.null := by
  have hu : (wSer 0)._uuid = some "u0" := by simp [wSer]
  have hchil : ∀ r ∈ (wSer 0).children, ∃ b s, r = JsRef.entity b ∧
      (wSer b)._uuid = some s ∧ mapGet mSer (.str s) = some b := by
    intro r hr
    simp [wSer] at hr
    subst hr
    exact ⟨1, "u1", rfl, by simp [wSer], by simp [mapGet, mSer]⟩
  have hneigh : ∀ r ∈ (wSer 0).neighbors, ∃ b s, r = JsRef.entity b ∧
      (wSer b)._uuid = some s ∧ mapGet mSer (.str s) = some b := by
    intro r hr
    simp [wSer] at hr
    subst hr
    exact ⟨2, "u2", rfl, by simp [wSer], by simp [mapGet, mSer]⟩
  have hpar : (wSer 0).parent = .null ∨ ∃ pq s,
      (wSer 0).parent = JsRef.entity pq ∧ (wSer pq)._uuid = some s ∧
      mapGet mSer (.str s) = some pq :=
    Or.inl (by simp [wSer, GameEntity.init])
  have hs := serialization_roundtrip_spec 3 wSer 0 (fun _ => "f") mSer "u0"
    hu hchil hneigh hpar
  refine ⟨hu, hs.1, hs.2.1, ?_, ?_, hs.2.2.2.2.1, ?_, ?_, ?_⟩
  · rw [hs.2.2.1]; simp [wSer]
  · rw [hs.2.2.2.1]; simp [wSer]
  · rw [hs.2.2.2.2.2.1]; simp [wSer]
  · rw [hs.2.2.2.2.2.2.1]; simp [wSer]
  · rw [hs.2.2.2.2.2.2.2]; simp [wSer, GameEntity.init]

theorem randDigit_lt (r : ℚ) (_h0 : 0 ≤ r) (h1 : r < 1) : randDigit r < 16 := by
  unfold randDigit
  have hf : Int.floor (r * 16) < 16 := by
    have h16 : r * 16 < 16 := by nlinarith
    exact Int.floor_lt.mpr (by push_cast; linarith)
  omega

theorem hexChar_mem_hexDigits (n : Nat) (h : n < 16) : hexChar n ∈ hexDigits := by
  interval_cases n <;> decide

theorem variantChar_mem (d : Nat) (h : d < 16) :
    hexChar ((d &&& 3) ||| 8) ∈ ['8', '9', 'a', 'b'] := by
  interval_cases d <;> decide

theorem replaceXY_matches (rnd : Nat → ℚ) (hr : ∀ i, 0 ≤ rnd i ∧ rnd i < 1) :
    ∀ (tl : List Char) (k : Nat), List.Forall₂ charMatches tl (replaceXY rnd tl k) := by
  intro tl
  induction tl with
  | nil => intro k; simp [replaceXY]
  | cons c rest ih =>
    intro k
    by_cases hx : c = 'x'
    · subst hx
      simp only [replaceXY, if_pos rfl]
      refine List.Forall₂.cons ?_ (ih (k + 1))
      simp only [charMatches, if_pos rfl]
      exact hexChar_mem_hexDigits _ (randDigit_lt _ (hr k).1 (hr k).2)
    · by_cases hy : c = 'y'
      · subst hy
        simp only [replaceXY, if_neg hx, if_pos rfl]
        refine List.Forall₂.cons ?_ (ih (k + 1))
        simp only [charMatches, if_neg hx, if_pos rfl]
        exact variantChar_mem _ (randDigit_lt _ (hr k).1 (hr k).2)
      · simp only [replaceXY, if_neg hx, if_neg hy]
        refine List.Forall₂.cons ?_ (ih k)
        simp [charMatches, hx, hy]

/-- C9: a freshly constructed entity has no stored identifier; generation
produces a string matching xxxxxxxx-xxxx-4xxx-yxxx-xxxxxxxxxxxx (lowercase
hexadecimal, literal dashes, version nibble fixed to 4, variant nibble in
8/9/a/b) for any stream of Math.random draws in [0,1); the first read of the
uuid accessor stores and returns that string; a read with an identifier
already stored returns it unchanged (so a deserialization override sticks);
and a second read always returns the same string as the first, whatever
random draws follow. -/
theorem uuid_spec (rnd rnd2 : Nat → ℚ) (hr : ∀ i, 0 ≤ rnd i ∧ rnd i < 1) :
    GameEntity.init._uuid = none ∧
    matchesUuidPattern (generateUUID rnd) ∧
    (∀ e : GameEntity, e._uuid = none →
      uuidGet e rnd =
        (generateUUID rnd, { e with _uuid := some (generateUUID rnd) })) ∧
    (∀ (e : GameEntity) (u : String), e._uuid = some u → uuidGet e rnd = (u, e)) ∧
    (∀ e : GameEntity, (uuidGet ((uuidGet e rnd).2) rnd2).1 = (uuidGet e rnd).1) := by
  refine ⟨rfl, ?_, ?_, ?_, ?_⟩
  · exact replaceXY_matches rnd hr uuidTemplate 0
  · intro e he
    simp [uuidGet, he]
  · intro e u he
    simp [uuidGet, he]
  · intro e
    cases he : e._uuid with
    | some u => simp [uuidGet, he]
    | none => simp [uuidGet, he]

theorem uuid_spec_witness :
    matchesUuidPattern (generateUUID (fun _ => 0)) ∧
    uuidGet GameEntity.init (fun _ => 0) =
      (generateUUID (fun _ => 0),
        { GameEntity.init with _uuid := some (generateUUID (fun _ => 0)) }) := by
  have hr : ∀ i : Nat, 0 ≤ (fun _ => (0 : ℚ)) i ∧ (fun _ => (0 : ℚ)) i < 1 :=
    fun _ => ⟨le_refl 0, by norm_num⟩
  have hs := uuid_spec (fun _ => 0) (fun _ => 0) hr
  exact ⟨hs.2.1, hs.2.2.1 GameEntity.init rfl⟩

theorem qnormalize_unit (a : Quat4 ℝ) (h : RealQuat.qdot a a = 1) :
    RealQuat.qnormalize a = a := by
  unfold RealQuat.qnormalize RealQuat.qlength
  rw [h, Real.sqrt_one, if_neg one_ne_zero]
  cases a
  simp [RealQuat.qscale]

/-- C3 (amended): _rotateTowards normalizes both quaternions, computes
angle = 2·acos of the dot clamped to [-1,1], and snaps to the (normalized)
target returning true exactly when angle < tolerance at entry (the NaN
disjunct of the guard has no real-number counterpart); otherwise it slerps by
min(1, maxAngle/angle) and returns false — always, even when that fraction is
1 and the final orientation coincides with the target, so the returned
boolean is not "final orientation equals target" but "the snap branch was
taken". -/
theorem rotateTowards_spec (rotation target : Quat4 ℝ) (maxAngle tolerance : ℝ) :
    ((RealQuat.rotateTowards rotation target maxAngle tolerance).1 = true ↔
      rotAngle rotation target < tolerance) ∧
    (rotAngle rotation target < tolerance →
      RealQuat.rotateTowards rotation target maxAngle tolerance =
        (true, RealQuat.qnormalize target)) ∧
    (¬ rotAngle rotation target < tolerance →
      RealQuat.rotateTowards rotation target maxAngle tolerance =
        (false,
          RealQuat.slerp (RealQuat.qnormalize rotation) (RealQuat.qnormalize target)
            (min 1 (maxAngle / rotAngle rotation target)))) := by
  simp only [RealQuat.rotateTowards, rotAngle]
  split_ifs with h
  · exact ⟨by simp [h], fun _ => rfl, fun hn => absurd h hn⟩
  · exact ⟨by simp [h], fun hc => absurd hc h, fun _ => rfl⟩

theorem rotateTowards_spec_witness :
    (RealQuat.rotateTowards ⟨0, 0, 0, 1⟩ ⟨0, 1, 0, 0⟩ Real.pi (1 / 10000)).1 = true ↔
      rotAngle ⟨0, 0, 0, 1⟩ ⟨0, 1, 0, 0⟩ < 1 / 10000 :=
  (rotateTowards_spec ⟨0, 0, 0, 1⟩ ⟨0, 1, 0, 0⟩ Real.pi (1 / 10000)).1

/-- C3: the claim fails at a concrete input.  From the identity orientation,
rotating toward the target (0,1,0,0) (angle π) with turn budget
maxAngle = π and tolerance 1e-4 interpolates the full fraction
min(1, π/π) = 1: the final orientation equals the target exactly, yet the
method returns false, contradicting "true exactly when the entity's final
orientation equals the target orientation — including the case where the
interpolation fraction reached 1". -/
theorem rotateTowards_cex :
    RealQuat.rotateTowards ⟨0, 0, 0, 1⟩ ⟨0, 1, 0, 0⟩ Real.pi (1 / 10000) =
      (false, ⟨0, 1, 0, 0⟩) := by
  have hn1 : RealQuat.qnormalize ⟨0, 0, 0, 1⟩ = (⟨0, 0, 0, 1⟩ : Quat4 ℝ) :=
    qnormalize_unit _ (by norm_num [RealQuat.qdot])
  have hn2 : RealQuat.qnormalize ⟨0, 1, 0, 0⟩ = (⟨0, 1, 0, 0⟩ : Quat4 ℝ) :=
    qnormalize_unit _ (by norm_num [RealQuat.qdot])
  have hdot : RealQuat.qdot (⟨0, 0, 0, 1⟩ : Quat4 ℝ) ⟨0, 1, 0, 0⟩ = 0 := by
    norm_num [RealQuat.qdot]
  have hclamp : max (-1 : ℝ) (min 1 (0 : ℝ)) = 0 := by norm_num
  have hs : RealQuat.slerp (⟨0, 0, 0, 1⟩ : Quat4 ℝ) ⟨0, 1, 0, 0⟩ 1 =
      (⟨0, 1, 0, 0⟩ : Quat4 ℝ) := by
    simp only [RealQuat.slerp, hdot]
    rw [if_neg (by norm_num : ¬ ((0 : ℝ) < 0)),
      if_neg (by norm_num : ¬ ((0 : ℝ) > 0.999999)), Real.arccos_zero]
    norm_num [Real.sin_pi_div_two]
  simp only [RealQuat.rotateTowards, hn1, hn2, hdot, hclamp, Real.arccos_zero]
  rw [if_neg (by nlinarith [Real.pi_gt_three] :
    ¬ (2 * (Real.pi / 2) < (1 : ℝ) / 10000))]
  have harg : Real.pi / (2 * (Real.pi / 2)) = 1 := by
    rw [show 2 * (Real.pi / 2) = Real.pi by ring, div_self Real.pi_ne_zero]
  rw [harg, min_self, hs]

/-- C6: part_001's setRenderComponent with both arguments present and the
callback of function type stores them and immediately performs one
synchronization pass — the world matrix is updated, decomposed into
position / rotation / scaling, and the callback is invoked exactly once with
the component and those values; with a missing component, or a missing or
non-function callback, the call throws the corresponding error before
storing anything (the heap is not part of the error result). -/
theorem setRenderComponent_spec (fuel : Nat) (w : Render.RWorld) (a : Nat)
    (rc : Nat) (cb : Render.RCallback) (hcb : cb.isFunction = true) :
    Render.setRenderComponent fuel w a (some rc) (some cb) =
      (let w1 := Render.rsetEnt w a
        { w a with
          _renderComponent := some rc
          _renderComponentCallback := some cb }
       let w2 := Render.rupdateWorldMatrix fuel w1 a
       let d := Render.decomposeM ((w2 a)._worldMatrix)
       .ok (w2, [⟨rc, d.2.2, d.2.1, d.1⟩])) ∧
    (∀ cb2, Render.setRenderComponent fuel w a none cb2 =
      .error "Render component cannot be null") ∧
    (∀ rc2, Render.setRenderComponent fuel w a (some rc2) none =
      .error "Render callback must be a function") ∧
    (∀ rc2 cb2, Render.RCallback.isFunction cb2 = false →
      Render.setRenderComponent fuel w a (some rc2) (some cb2) =
        .error "Render callback must be a function") := by
  refine ⟨?_, fun _ => rfl, fun _ => rfl, fun rc2 cb2 h => ?_⟩
  · simp only [Render.setRenderComponent, hcb]
    rw [if_neg (by simp)]
    simp [Render.syncEntityToRender, Render.rsetEnt]
  · simp only [Render.setRenderComponent, h]
    simp

theorem setRenderComponent_spec_witness :
    Render.RCallback.isFunction ⟨true⟩ = true ∧
    Render.setRenderComponent 1 rw0 0 (some 7) (some ⟨true⟩) =
      (let w1 := Render.rsetEnt rw0 0
        { rw0 0 with
          _renderComponent := some 7
          _renderComponentCallback := some ⟨true⟩ }
       let w2 := Render.rupdateWorldMatrix 1 w1 0
       let d := Render.decomposeM ((w2 0)._worldMatrix)
       .ok (w2, [⟨7, d.2.2, d.2.1, d.1⟩])) ∧
    Render.setRenderComponent 1 rw0 0 none (some ⟨true⟩) =
      .error "Render component cannot be null" :=
  ⟨rfl, (setRenderComponent_spec 1 rw0 0 7 ⟨true⟩ rfl).1,
    (setRenderComponent_spec 1 rw0 0 7 ⟨true⟩ rfl).2.1 (some ⟨true⟩)⟩
